import Mathlib

/-!
Verification of the resilience core of the `microservicios-patrones-de-dise-o-`
repository: the Circuit Breaker state machine (`src/shared/CircuitBreaker.js`)
and the API Gateway's retry / rate-limit / request-forwarding logic
(`src/gateway/GatewayService.js`), shallowly embedded in Lean.

Time is modelled as a natural number of milliseconds (`Date.now()`), the
wrapped asynchronous call of `CircuitBreaker.execute` as an abstract outcome
(resolves with a status, rejects with an axios-style error, or never settles
within the timeout window), and the optional JS callbacks (`onStateChange`,
`onFailure`, `onSuccess`) as values that are either `null`, a function that
returns normally, or a function that throws.
-/

namespace Micro

/-- The three circuit breaker states of `CircuitBreaker.js`. -/
inductive BState
  | CLOSED
  | OPEN
  | HALF_OPEN
deriving DecidableEq, Repr

/-- A JS callback slot: `null`, or a function that either returns or throws. -/
inductive Cb
  | null
  | fn (throws : Bool)
deriving DecidableEq, Repr

/-- An axios-style error: an optional HTTP response status (`error.response`)
and an optional connection error code string (`error.code`). -/
structure AxiosError where
  response : Option Nat
  code : Option String
deriving DecidableEq, Repr

/-- Errors that can propagate out of `CircuitBreaker.execute`. `typeError` is
the JS `TypeError` raised by invoking a `null` callback; `hookError` is an
exception raised by a user-supplied callback. -/
inductive JsError
  | circuitOpen
  | circuitTimeout
  | typeError
  | hookError
  | callError (e : AxiosError)
deriving DecidableEq, Repr

/-- The `this.metrics` object of a `CircuitBreaker`. `lastStateChange` is a
timestamp in milliseconds. -/
structure Metrics where
  totalRequests : Nat
  successfulRequests : Nat
  failedRequests : Nat
  circuitOpenCount : Nat
  circuitCloseCount : Nat
  lastStateChange : Nat
deriving DecidableEq, Repr

/-- The mutable instance state of a `CircuitBreaker` object, one field per
JS instance field. -/
structure Breaker where
  name : String
  failureThreshold : Nat
  timeout : Nat
  resetTimeout : Nat
  monitoringPeriod : Nat
  state : BState
  failures : Nat
  successes : Nat
  lastFailureTime : Option Nat
  lastSuccessTime : Option Nat
  nextAttemptTime : Option Nat
  metrics : Metrics
  onStateChange : Cb
  onFailure : Cb
  onSuccess : Cb
deriving DecidableEq, Repr

/-- The options bag accepted by the `CircuitBreaker` constructor. Numeric and
string fields are optional; callbacks default to `null`. -/
structure CBOptions where
  name : Option String
  failureThreshold : Option Nat
  timeout : Option Nat
  resetTimeout : Option Nat
  monitoringPeriod : Option Nat
  onStateChange : Cb
  onFailure : Cb
  onSuccess : Cb
deriving DecidableEq, Repr

/-- JS `x || d` for an optional number: `undefined` and `0` are falsy. -/
def orDefaultNum (o : Option Nat) (d : Nat) : Nat :=
  match o with
  | some 0 => d
  | some n => n
  | none => d

/-- JS `x || d` for an optional string: `undefined` and `''` are falsy. -/
def orDefaultStr (o : Option String) (d : String) : String :=
  match o with
  | some s => if s = "" then d else s
  | none => d

/-- The `CircuitBreaker` constructor: state `CLOSED`, zeroed counters and
metrics, defaults `failureThreshold = 5`, `timeout = 60000`,
`resetTimeout = 30000`, `monitoringPeriod = 10000`. -/
def make (opts : CBOptions) (now : Nat) : Breaker :=
  { name := orDefaultStr opts.name "default"
    failureThreshold := orDefaultNum opts.failureThreshold 5
    timeout := orDefaultNum opts.timeout 60000
    resetTimeout := orDefaultNum opts.resetTimeout 30000
    monitoringPeriod := orDefaultNum opts.monitoringPeriod 10000
    state := BState.CLOSED
    failures := 0
    successes := 0
    lastFailureTime := none
    lastSuccessTime := none
    nextAttemptTime := none
    metrics := ⟨0, 0, 0, 0, 0, now⟩
    onStateChange := opts.onStateChange
    onFailure := opts.onFailure
    onSuccess := opts.onSuccess }

/-- Result of one internal breaker step (`setState`, `recordSuccess`,
`recordFailure`, `reset`): the updated breaker, the `(oldState, newState)`
arguments of each `onStateChange` invocation performed, and the exception
thrown by the step, if any. All field mutations in the JS code precede the
hook invocation, so they persist even when the hook throws. -/
structure StepOut where
  breaker : Breaker
  hookCalls : List (BState × BState)
  thrown : Option JsError
deriving DecidableEq, Repr

/-- `CircuitBreaker.setState(newState)`: no-op if the state is unchanged;
otherwise update `state`, `metrics.lastStateChange` and the per-state fields,
then invoke `onStateChange(oldState, newState)` if it is non-null. The hook
is not guarded by try/catch: if it throws, the exception propagates, but the
state fields are already updated. -/
def setState (b : Breaker) (now : Nat) (ns : BState) : StepOut :=
  if b.state = ns then ⟨b, [], none⟩
  else
    let old := b.state
    let b1 := { b with state := ns, metrics := { b.metrics with lastStateChange := now } }
    let b2 :=
      match ns with
      | BState.OPEN =>
          { b1 with nextAttemptTime := some (now + b1.resetTimeout),
                    metrics := { b1.metrics with
                      circuitOpenCount := b1.metrics.circuitOpenCount + 1 } }
      | BState.HALF_OPEN => { b1 with nextAttemptTime := none }
      | BState.CLOSED =>
          { b1 with nextAttemptTime := none, failures := 0,
                    metrics := { b1.metrics with
                      circuitCloseCount := b1.metrics.circuitCloseCount + 1 } }
    match b2.onStateChange with
    | Cb.null => ⟨b2, [], none⟩
    | Cb.fn thr => ⟨b2, [(old, ns)], if thr then some JsError.hookError else none⟩

/-- `CircuitBreaker.recordSuccess()`: bump `successes`, reset `failures`,
record `lastSuccessTime` and the metric, then close the breaker if it was
`HALF_OPEN`. -/
def recordSuccess (b : Breaker) (now : Nat) : StepOut :=
  let b1 := { b with successes := b.successes + 1, failures := 0,
                     lastSuccessTime := some now,
                     metrics := { b.metrics with
                       successfulRequests := b.metrics.successfulRequests + 1 } }
  if b1.state = BState.HALF_OPEN then setState b1 now BState.CLOSED else ⟨b1, [], none⟩

/-- `CircuitBreaker.recordFailure()`: bump `failures`, record
`lastFailureTime` and the metric, then open the breaker once
`failures >= failureThreshold`. -/
def recordFailure (b : Breaker) (now : Nat) : StepOut :=
  let b1 := { b with failures := b.failures + 1, lastFailureTime := some now,
                     metrics := { b.metrics with
                       failedRequests := b.metrics.failedRequests + 1 } }
  if b1.failureThreshold ≤ b1.failures then setState b1 now BState.OPEN else ⟨b1, [], none⟩

/-- `CircuitBreaker.shouldAttemptReset()`: true when `nextAttemptTime` is set
and has been reached. -/
def shouldAttemptReset (b : Breaker) (now : Nat) : Bool :=
  match b.nextAttemptTime with
  | none => false
  | some t => t ≤ now

/-- `CircuitBreaker.reset()`: zero all counters and timestamps, then force
`CLOSED` through `setState`. -/
def reset (b : Breaker) (now : Nat) : StepOut :=
  let b1 := { b with failures := 0, successes := 0, lastFailureTime := none,
                     lastSuccessTime := none, nextAttemptTime := none }
  setState b1 now BState.CLOSED

/-- `CircuitBreaker.forceOpen()`: force the `OPEN` state through `setState`. -/
def forceOpen (b : Breaker) (now : Nat) : StepOut :=
  setState b now BState.OPEN

/-- Behaviour of the wrapped asynchronous call passed to `execute`, observed
through the timeout window of `executeWithTimeout`: it resolves with an HTTP
status, rejects with an axios-style error, or never settles (so the timeout
timer fires). -/
inductive CallOutcome
  | succeeds (status : Nat)
  | fails (e : AxiosError)
  | hangs
deriving DecidableEq, Repr

deriving instance DecidableEq for Except

/-- Result of the promise built by `executeWithTimeout`: `settled = none`
means the promise never settles (which happens when a record step throws
inside the rejection handler, so `reject` is never reached). -/
structure TimeoutOut where
  settled : Option (Except JsError Nat)
  breaker : Breaker
  hookCalls : List (BState × BState)
deriving DecidableEq, Repr

/-- `CircuitBreaker.executeWithTimeout(fn)`. If the call resolves in time the
`.then` handler runs `recordSuccess` and resolves; if that throws, the
`.catch` handler runs `recordFailure` and rejects with the thrown error. If
the call rejects in time, the `.catch` handler runs `recordFailure` and
rejects with the call's error; if `recordFailure` itself throws, `reject` is
never called and the promise never settles. If the call never settles within
`timeout` ms, the timer rejects with `CircuitBreakerTimeoutError` and no
record step runs. -/
def executeWithTimeout (b : Breaker) (now : Nat) (o : CallOutcome) : TimeoutOut :=
  match o with
  | CallOutcome.succeeds s =>
      let r := recordSuccess b now
      match r.thrown with
      | none => ⟨some (Except.ok s), r.breaker, r.hookCalls⟩
      | some he =>
          let r2 := recordFailure r.breaker now
          match r2.thrown with
          | some _ => ⟨none, r2.breaker, r.hookCalls ++ r2.hookCalls⟩
          | none => ⟨some (Except.error he), r2.breaker, r.hookCalls ++ r2.hookCalls⟩
  | CallOutcome.fails e =>
      let r := recordFailure b now
      match r.thrown with
      | some _ => ⟨none, r.breaker, r.hookCalls⟩
      | none => ⟨some (Except.error (JsError.callError e)), r.breaker, r.hookCalls⟩
  | CallOutcome.hangs => ⟨some (Except.error JsError.circuitTimeout), b, []⟩

/-- Observable result of one `execute` call. -/
inductive ExecResult
  | ok (status : Nat)
  | err (e : JsError)
  | hangs
deriving DecidableEq, Repr

/-- Full observation of one `execute` call: its result, the breaker state it
leaves behind, the `onStateChange` invocations performed, and whether the
wrapped call was invoked at all. -/
structure ExecOut where
  result : ExecResult
  breaker : Breaker
  hookCalls : List (BState × BState)
  callAttempted : Bool
deriving DecidableEq, Repr

/-- The catch block of `execute`: `this.onFailure(error); throw error`.
Invoking a `null` `onFailure` raises a `TypeError` (replacing the original
error); a throwing `onFailure` replaces it with the hook's exception. -/
def handleCatch (onFailureCb : Cb) (e : JsError) : ExecResult :=
  match onFailureCb with
  | Cb.null => ExecResult.err JsError.typeError
  | Cb.fn true => ExecResult.err JsError.hookError
  | Cb.fn false => ExecResult.err e

/-- The try/catch body of `execute`: await `executeWithTimeout`, then
`this.onSuccess(result); return result`, with the catch block of
`handleCatch` around both. Invoking a `null` `onSuccess` raises a
`TypeError`, which is caught by the same catch block. -/
def executeTry (b : Breaker) (now : Nat) (o : CallOutcome)
    (log0 : List (BState × BState)) : ExecOut :=
  let w := executeWithTimeout b now o
  match w.settled with
  | none => ⟨ExecResult.hangs, w.breaker, log0 ++ w.hookCalls, true⟩
  | some (Except.ok s) =>
      match w.breaker.onSuccess with
      | Cb.null =>
          ⟨handleCatch w.breaker.onFailure JsError.typeError, w.breaker,
            log0 ++ w.hookCalls, true⟩
      | Cb.fn true =>
          ⟨handleCatch w.breaker.onFailure JsError.hookError, w.breaker,
            log0 ++ w.hookCalls, true⟩
      | Cb.fn false => ⟨ExecResult.ok s, w.breaker, log0 ++ w.hookCalls, true⟩
  | some (Except.error e) =>
      ⟨handleCatch w.breaker.onFailure e, w.breaker, log0 ++ w.hookCalls, true⟩

/-- `CircuitBreaker.execute(fn)`: bump `totalRequests`; while `OPEN`, either
transition to `HALF_OPEN` (when `shouldAttemptReset`) or throw
`CircuitBreakerOpenError` without invoking the wrapped call; then run the
try/catch body. The `HALF_OPEN` transition happens outside the try block, so
a hook exception there propagates without reaching `onFailure`. -/
def execute (b0 : Breaker) (now : Nat) (o : CallOutcome) : ExecOut :=
  let b := { b0 with metrics := { b0.metrics with
               totalRequests := b0.metrics.totalRequests + 1 } }
  if b.state = BState.OPEN then
    if shouldAttemptReset b now then
      let r := setState b now BState.HALF_OPEN
      match r.thrown with
      | some e => ⟨ExecResult.err e, r.breaker, r.hookCalls, false⟩
      | none => executeTry r.breaker now o r.hookCalls
    else ⟨ExecResult.err JsError.circuitOpen, b, [], false⟩
  else executeTry b now o []

/-- `n` consecutive `execute` calls, all at time `now`, whose wrapped call
rejects with the error `e`. -/
def execFailN (b : Breaker) (now : Nat) (e : AxiosError) : Nat → Breaker
  | 0 => b
  | n + 1 => execFailN (execute b now (CallOutcome.fails e)).breaker now e n

/-! ## GatewayService (`src/gateway/GatewayService.js`) -/

/-- `GatewayService.isRetryableError(error)`: an error with an HTTP response
is retryable exactly when its status is `>= 500`; otherwise only the
connection error codes `ECONNREFUSED`, `ETIMEDOUT`, `ENOTFOUND` are
retryable. -/
def isRetryableError (e : AxiosError) : Bool :=
  match e.response with
  | some s => decide (500 ≤ s)
  | none =>
      match e.code with
      | some c => ["ECONNREFUSED", "ETIMEDOUT", "ENOTFOUND"].contains c
      | none => false

/-- Observation of one `makeRequestWithRetry` run: its result, the number of
attempts made, and the backoff delays slept between attempts, in order and in
milliseconds. -/
structure RetryOut (α : Type) where
  result : Except AxiosError α
  attempts : Nat
  delays : List Nat
deriving DecidableEq, Repr

/-- The retry loop of `makeRequestWithRetry`, with the call modelled as a
function from the attempt index `i = retries - k` to its outcome; `k` counts
the retries still available (`i < retries` in the JS loop corresponds to
`0 < k`). On a retryable failure with retries left, sleep `2^i * 1000` ms and
try again; otherwise break out and rethrow the last error. -/
def retryGo {α : Type} (call : Nat → Except AxiosError α) (retries : Nat) :
    Nat → RetryOut α
  | 0 =>
      match call retries with
      | Except.ok v => ⟨Except.ok v, retries + 1, []⟩
      | Except.error e => ⟨Except.error e, retries + 1, []⟩
  | k + 1 =>
      let i := retries - (k + 1)
      match call i with
      | Except.ok v => ⟨Except.ok v, i + 1, []⟩
      | Except.error e =>
          if isRetryableError e then
            let rest := retryGo call retries k
            ⟨rest.result, rest.attempts, (2 ^ i * 1000) :: rest.delays⟩
          else ⟨Except.error e, i + 1, []⟩

/-- `GatewayService.makeRequestWithRetry(config, retries)`: up to
`retries + 1` attempts (`for i = 0; i <= retries; i++`) with exponential
backoff `2^i * 1000` ms between retryable failures. -/
def makeRequestWithRetry {α : Type} (call : Nat → Except AxiosError α)
    (retries : Nat) : RetryOut α :=
  retryGo call retries retries

/-- The per-service config objects in `GatewayService.services`. -/
structure ServiceCfg where
  url : String
  timeout : Nat
  retries : Nat
deriving DecidableEq, Repr

/-- The gateway's configured service map: `usuarios`, `pagos`, `catalogo`,
each with a 5000 ms timeout and 3 retries (URLs are the defaults used when
the corresponding environment variables are unset). -/
def services : String → Option ServiceCfg
  | "usuarios" => some ⟨"http://localhost:3001", 5000, 3⟩
  | "pagos" => some ⟨"http://localhost:3002", 5000, 3⟩
  | "catalogo" => some ⟨"http://localhost:3004", 5000, 3⟩
  | _ => none

/-- `CircuitBreakerManager.getBreaker(name, options)`: return the breaker
stored under `name`, or construct one from `{ name, ...options }` (a `name`
supplied in `options` wins over the first argument, mirroring the object
spread) and append it to the manager's map. -/
def getBreaker (m : List (String × Breaker)) (nm : String) (opts : CBOptions)
    (now : Nat) : Breaker × List (String × Breaker) :=
  match m.lookup nm with
  | some b => (b, m)
  | none =>
      let effName := match opts.name with
        | some s => some s
        | none => some nm
      let b := make { opts with name := effName } now
      (b, m ++ [(nm, b)])

/-- The shape of the JSON body `processRequest` answers with. -/
inductive RespTag
  | notFound
  | success
  | circuitOpen
  | circuitTimeout
  | serviceError
  | connRefused
  | internalError
deriving DecidableEq, Repr

/-- An HTTP response sent by `processRequest`: status code and body shape. -/
structure HttpResponse where
  status : Nat
  tag : RespTag
deriving DecidableEq, Repr

/-- The empty options object `{}` that `processRequest` passes to
`getBreaker`. -/
def emptyOptions : CBOptions :=
  ⟨none, none, none, none, none, Cb.null, Cb.null, Cb.null⟩

/-- `GatewayService.processRequest(serviceName, req, res)`: unknown services
are answered `404` without touching the breaker map; otherwise the breaker
for the service runs the downstream call and the result is translated —
success relays the downstream status, `CircuitBreakerOpenError` maps to
`503`, `CircuitBreakerTimeoutError` to `504`, a downstream HTTP error relays
its status, `ECONNREFUSED` maps to `503`, anything else to `500`. A `none`
response means no response was ever sent (the breaker promise never
settled). -/
def processRequest (m : List (String × Breaker)) (serviceName : String)
    (now : Nat) (o : CallOutcome) : Option HttpResponse × List (String × Breaker) :=
  match services serviceName with
  | none => (some ⟨404, RespTag.notFound⟩, m)
  | some _svc =>
      let p := getBreaker m serviceName emptyOptions now
      let out := execute p.1 now o
      let m2 := p.2.map (fun q => if q.1 = serviceName then (q.1, out.breaker) else q)
      match out.result with
      | ExecResult.ok s => (some ⟨s, RespTag.success⟩, m2)
      | ExecResult.hangs => (none, m2)
      | ExecResult.err JsError.circuitOpen => (some ⟨503, RespTag.circuitOpen⟩, m2)
      | ExecResult.err JsError.circuitTimeout => (some ⟨504, RespTag.circuitTimeout⟩, m2)
      | ExecResult.err (JsError.callError e) =>
          match e.response with
          | some s => (some ⟨s, RespTag.serviceError⟩, m2)
          | none =>
              if e.code = some "ECONNREFUSED" then (some ⟨503, RespTag.connRefused⟩, m2)
              else (some ⟨500, RespTag.internalError⟩, m2)
      | ExecResult.err JsError.typeError => (some ⟨500, RespTag.internalError⟩, m2)
      | ExecResult.err JsError.hookError => (some ⟨500, RespTag.internalError⟩, m2)

/-! ## Rate-limit middleware (`setupDefaultMiddleware`, `rateLimit`) -/

/-- The fixed window of the rate limiter: 15 minutes in milliseconds. -/
def rlWindowMs : Nat := 15 * 60 * 1000

/-- The per-window request cap of the rate limiter. -/
def rlMaxRequests : Nat := 100

/-- The per-client entry `{ count, resetTime }` in `rateLimitStore`. -/
structure RLEntry where
  count : Nat
  resetTime : Nat
deriving DecidableEq, Repr

/-- What the rate-limit middleware does with one request: call `next()`, or
answer `429` with the given `retryAfter` seconds without calling `next()`. -/
inductive RLDecision
  | pass
  | reject (retryAfter : Nat)
deriving DecidableEq, Repr

/-- One run of the rate-limit middleware for a single client: create the
entry if absent, roll the window when `now > resetTime`, answer `429` with
`retryAfter = ceil((resetTime - now) / 1000)` when the cap is reached, and
otherwise count the request and call `next()`. In the reject branch
`now ≤ resetTime` holds, so the ceiling is `(resetTime - now + 999) / 1000`
over naturals. -/
def rateLimitStep (entry : Option RLEntry) (now : Nat) : RLDecision × RLEntry :=
  let e0 := match entry with
    | none => (⟨0, now + rlWindowMs⟩ : RLEntry)
    | some e => e
  let e1 := if e0.resetTime < now then (⟨0, now + rlWindowMs⟩ : RLEntry) else e0
  if rlMaxRequests ≤ e1.count then
    (RLDecision.reject ((e1.resetTime - now + 999) / 1000), e1)
  else
    (RLDecision.pass, ⟨e1.count + 1, e1.resetTime⟩)

/-- Fold `rateLimitStep` over a list of request arrival times for one
client, collecting the decisions. -/
def runRequests (entry : Option RLEntry) : List Nat → List RLDecision × Option RLEntry
  | [] => ([], entry)
  | t :: ts =>
      let p := rateLimitStep entry t
      let rest := runRequests (some p.2) ts
      (p.1 :: rest.1, rest.2)

/-! ## Theorems -/

/-- Claim C9: a breaker constructed with the default (`null`) `onSuccess` and
`onFailure` callbacks never delivers the wrapped call's value: even when the
call resolves, `execute` throws a `TypeError` (from invoking the null
`onSuccess`), yet the success was already recorded in `successes`,
`successfulRequests` and `totalRequests` before the throw. -/
theorem C9_null_onSuccess_typeError (b : Breaker) (now s : Nat)
    (hsucc : b.onSuccess = Cb.null) (hfail : b.onFailure = Cb.null)
    (hst : b.state = BState.CLOSED) :
    (execute b now (CallOutcome.succeeds s)).result = ExecResult.err JsError.typeError ∧
    (execute b now (CallOutcome.succeeds s)).breaker.successes = b.successes + 1 ∧
    (execute b now (CallOutcome.succeeds s)).breaker.metrics.successfulRequests
      = b.metrics.successfulRequests + 1 ∧
    (execute b now (CallOutcome.succeeds s)).breaker.metrics.totalRequests
      = b.metrics.totalRequests + 1 ∧
    (execute b now (CallOutcome.succeeds s)).breaker.failures = 0 ∧
    (execute b now (CallOutcome.succeeds s)).breaker.state = BState.CLOSED ∧
    (execute b now (CallOutcome.succeeds s)).callAttempted = true := by
  simp [execute, executeTry, executeWithTimeout, recordSuccess, handleCatch,
    hsucc, hfail, hst]

/-- Witness for C9 at a concrete breaker. -/
theorem C9_null_onSuccess_typeError_witness :
    (make ⟨some "w", some 2, some 1000, some 5000, none, Cb.null, Cb.null, Cb.null⟩
      0).onSuccess = Cb.null ∧
    (execute (make ⟨some "w", some 2, some 1000, some 5000, none, Cb.null, Cb.null,
      Cb.null⟩ 0) 3 (CallOutcome.succeeds 200)).result
      = ExecResult.err JsError.typeError := by
  have h := C9_null_onSuccess_typeError
    (make ⟨some "w", some 2, some 1000, some 5000, none, Cb.null, Cb.null, Cb.null⟩ 0)
    3 200 rfl rfl rfl
  exact ⟨rfl, h.1⟩

/-- Claim C10: a service name outside the configured map is answered `404`
with the error body, and the breaker map — hence every breaker's state and
metrics, `totalRequests` included — is left untouched. -/
theorem C10_unknown_service_404 (m : List (String × Breaker)) (nm : String)
    (now : Nat) (o : CallOutcome) (h : services nm = none) :
    processRequest m nm now o = (some ⟨404, RespTag.notFound⟩, m) := by
  simp [processRequest, h]

/-- Witness for C10 at a concrete unknown service name. -/
theorem C10_unknown_service_404_witness :
    services "inscripciones" = none ∧
    processRequest [("usuarios", make ⟨some "usuarios", some 5, some 5000, some 30000,
        none, Cb.fn false, Cb.fn false, Cb.fn false⟩ 0)] "inscripciones" 5
        (CallOutcome.succeeds 200)
      = (some ⟨404, RespTag.notFound⟩,
         [("usuarios", make ⟨some "usuarios", some 5, some 5000, some 30000,
           none, Cb.fn false, Cb.fn false, Cb.fn false⟩ 0)]) :=
  ⟨rfl, C10_unknown_service_404 _ "inscripciones" 5 (CallOutcome.succeeds 200) rfl⟩

/-- Claim C5: with `retries = 3` and a call that fails with HTTP 500 on its
first two attempts and then succeeds, `makeRequestWithRetry` returns the
success value after exactly 3 attempts, sleeping `2^0 * 1000` ms and then
`2^1 * 1000` ms between them. -/
theorem C5_retry_backoff {α : Type} (call : Nat → Except AxiosError α) (v : α)
    (e0 e1 : AxiosError)
    (h0 : call 0 = Except.error e0) (hr0 : e0.response = some 500)
    (h1 : call 1 = Except.error e1) (hr1 : e1.response = some 500)
    (h2 : call 2 = Except.ok v) :
    makeRequestWithRetry call 3 = ⟨Except.ok v, 3, [1000, 2000]⟩ := by
  simp [makeRequestWithRetry, retryGo, h0, h1, h2, isRetryableError, hr0, hr1]

/-- Witness for C5 at a concrete call sequence. -/
theorem C5_retry_backoff_witness :
    (fun i => if i < 2 then (Except.error ⟨some 500, none⟩ : Except AxiosError Nat)
       else Except.ok 42) 2 = Except.ok 42 ∧
    makeRequestWithRetry
      (fun i => if i < 2 then (Except.error ⟨some 500, none⟩ : Except AxiosError Nat)
        else Except.ok 42) 3
      = ⟨Except.ok 42, 3, [1000, 2000]⟩ :=
  ⟨rfl, C5_retry_backoff _ 42 ⟨some 500, none⟩ ⟨some 500, none⟩ rfl rfl rfl rfl rfl⟩

/-- Claim C6: an error carrying an HTTP response with a status below 500
(any 4xx in particular) is not retried — exactly one attempt, no backoff
sleep, the error rethrown — whatever the retry budget; and `isRetryableError`
classifies exactly the `>= 500` response statuses and the three connection
error codes as retryable. -/
theorem C6_4xx_short_circuit (call : Nat → Except AxiosError Nat) (e : AxiosError)
    (s r : Nat) (h0 : call 0 = Except.error e) (hr : e.response = some s)
    (hs : s < 500) :
    makeRequestWithRetry call r = ⟨Except.error e, 1, []⟩ ∧
    ∀ e2 : AxiosError, isRetryableError e2 = true ↔
      ((∃ s2, e2.response = some s2 ∧ 500 ≤ s2) ∨
       (e2.response = none ∧ (e2.code = some "ECONNREFUSED" ∨
         e2.code = some "ETIMEDOUT" ∨ e2.code = some "ENOTFOUND"))) := by
  constructor
  · have hnr : isRetryableError e = false := by
      simp [isRetryableError, hr]
      omega
    cases r with
    | zero => simp [makeRequestWithRetry, retryGo, h0]
    | succ n => simp [makeRequestWithRetry, retryGo, h0, hnr]
  · intro e2
    rcases e2 with ⟨resp, code⟩
    cases resp with
    | some s2 => simp [isRetryableError]
    | none =>
        cases code with
        | none => simp [isRetryableError]
        | some c => simp [isRetryableError, List.contains]

/-- Witness for C6 at a concrete 404 call. -/
theorem C6_4xx_short_circuit_witness :
    (fun _ => (Except.error ⟨some 404, none⟩ : Except AxiosError Nat)) 0
      = Except.error ⟨some 404, none⟩ ∧
    makeRequestWithRetry
      (fun _ => (Except.error ⟨some 404, none⟩ : Except AxiosError Nat)) 3
      = ⟨Except.error ⟨some 404, none⟩, 1, []⟩ :=
  ⟨rfl, (C6_4xx_short_circuit _ ⟨some 404, none⟩ 404 3 rfl rfl (by omega)).1⟩

/-- Claim C2 (divergence witness): when the wrapped call never settles within
the timeout window, `execute` does fail with `CircuitBreakerTimeoutError`,
but — contrary to the spec — the timeout is NOT recorded as a failure: the
timer's rejection path bypasses `recordFailure`, so `failures` and
`metrics.failedRequests` are unchanged and the timeout contributes nothing
toward `failureThreshold`; only `totalRequests` moves. -/
theorem C2_timeout_not_recorded (b : Breaker) (now : Nat)
    (hst : b.state ≠ BState.OPEN) (hfail : b.onFailure = Cb.fn false) :
    (execute b now CallOutcome.hangs).result = ExecResult.err JsError.circuitTimeout ∧
    (execute b now CallOutcome.hangs).breaker
      = { b with metrics := { b.metrics with
            totalRequests := b.metrics.totalRequests + 1 } } ∧
    (execute b now CallOutcome.hangs).breaker.failures = b.failures ∧
    (execute b now CallOutcome.hangs).breaker.metrics.failedRequests
      = b.metrics.failedRequests := by
  simp [execute, executeTry, executeWithTimeout, handleCatch, hst, hfail]

/-- Witness for C2's divergence at the gateway's breaker configuration
(`failureThreshold 5`, `timeout 5000`, `resetTimeout 30000`, logging
callbacks). -/
theorem C2_timeout_not_recorded_witness :
    (make ⟨some "usuarios", some 5, some 5000, some 30000, none, Cb.fn false,
      Cb.fn false, Cb.fn false⟩ 0).state ≠ BState.OPEN ∧
    (execute (make ⟨some "usuarios", some 5, some 5000, some 30000, none, Cb.fn false,
      Cb.fn false, Cb.fn false⟩ 0) 3 CallOutcome.hangs).result
      = ExecResult.err JsError.circuitTimeout ∧
    (execute (make ⟨some "usuarios", some 5, some 5000, some 30000, none, Cb.fn false,
      Cb.fn false, Cb.fn false⟩ 0) 3 CallOutcome.hangs).breaker.failures = 0 := by
  have h := C2_timeout_not_recorded
    (make ⟨some "usuarios", some 5, some 5000, some 30000, none, Cb.fn false,
      Cb.fn false, Cb.fn false⟩ 0) 3 (by decide) rfl
  exact ⟨by decide, h.1, h.2.2.1⟩

/-- Claim C8: `reset()` always yields `CLOSED` with `failures = 0` and
`nextAttemptTime` cleared, and it is idempotent — a second `reset`, at any
later time, leaves the breaker exactly as the first one did. -/
theorem C8_reset_idempotent (b : Breaker) (now now2 : Nat) :
    (reset b now).breaker.state = BState.CLOSED ∧
    (reset b now).breaker.failures = 0 ∧
    (reset b now).breaker.nextAttemptTime = none ∧
    (reset (reset b now).breaker now2).breaker = (reset b now).breaker := by
  obtain ⟨nm, th, tout, rt, mon, st, fl, sc, lft, lst, nat, ⟨tr, sr, fr, oc, cc, lsc⟩,
    osc, ofl, osu⟩ := b
  cases st <;> cases osc <;> simp [reset, setState]

/-- One failing `execute` call on a `CLOSED` breaker: the failure is counted
and, once the threshold is reached, the breaker opens with
`nextAttemptTime = now + resetTimeout`. -/
lemma execute_fails_breaker_closed (b : Breaker) (now : Nat) (e : AxiosError)
    (hst : b.state = BState.CLOSED) :
    (execute b now (CallOutcome.fails e)).breaker =
      if b.failureThreshold ≤ b.failures + 1 then
        { b with state := BState.OPEN, failures := b.failures + 1,
                 lastFailureTime := some now,
                 nextAttemptTime := some (now + b.resetTimeout),
                 metrics := { b.metrics with
                   totalRequests := b.metrics.totalRequests + 1,
                   failedRequests := b.metrics.failedRequests + 1,
                   circuitOpenCount := b.metrics.circuitOpenCount + 1,
                   lastStateChange := now } }
      else
        { b with failures := b.failures + 1, lastFailureTime := some now,
                 metrics := { b.metrics with
                   totalRequests := b.metrics.totalRequests + 1,
                   failedRequests := b.metrics.failedRequests + 1 } } := by
  obtain ⟨nm, th, tout, rt, mon, st, fl, sc, lft, lst, nat, ⟨tr, sr, fr, oc, cc, lsc⟩,
    osc, ofl, osu⟩ := b
  simp only at hst
  subst hst
  by_cases hth : th ≤ fl + 1
  · cases osc with
    | null =>
        simp [execute, executeTry, executeWithTimeout, recordFailure, setState,
          handleCatch, hth]
    | fn thr =>
        cases thr <;>
          simp [execute, executeTry, executeWithTimeout, recordFailure, setState,
            handleCatch, hth]
  · simp [execute, executeTry, executeWithTimeout, recordFailure, setState,
      handleCatch, hth]

/-- `n` consecutive failing calls on a `CLOSED` breaker whose `failures`
counter is `n` short of the threshold leave it `OPEN`, with the failure
window anchored at the (shared) call time. -/
lemma execFailN_opens (e : AxiosError) :
    ∀ (n : Nat) (b : Breaker) (now : Nat), b.state = BState.CLOSED → 0 < n →
    b.failures + n = b.failureThreshold →
    execFailN b now e n =
      { b with state := BState.OPEN, failures := b.failureThreshold,
               lastFailureTime := some now,
               nextAttemptTime := some (now + b.resetTimeout),
               metrics := { b.metrics with
                 totalRequests := b.metrics.totalRequests + n,
                 failedRequests := b.metrics.failedRequests + n,
                 circuitOpenCount := b.metrics.circuitOpenCount + 1,
                 lastStateChange := now } } := by
  intro n
  induction n with
  | zero => intro b now _ h0; omega
  | succ n ih =>
      intro b now hst _ hsum
      obtain ⟨nm, th, tout, rt, mon, st, fl, sc, lft, lst, nat,
        ⟨tr, sr, fr, oc, cc, lsc⟩, osc, ofl, osu⟩ := b
      simp only at hst hsum
      subst hst
      cases Nat.eq_zero_or_pos n with
      | inl hn0 =>
          subst hn0
          have hth : th ≤ fl + 1 := by omega
          have hstep := execute_fails_breaker_closed
            ⟨nm, th, tout, rt, mon, BState.CLOSED, fl, sc, lft, lst, nat,
              ⟨tr, sr, fr, oc, cc, lsc⟩, osc, ofl, osu⟩ now e rfl
          rw [if_pos hth] at hstep
          simp only [execFailN, hstep]
          simp [Breaker.mk.injEq, Metrics.mk.injEq]
          omega
      | inr hnpos =>
          have hth : ¬ th ≤ fl + 1 := by omega
          have hstep := execute_fails_breaker_closed
            ⟨nm, th, tout, rt, mon, BState.CLOSED, fl, sc, lft, lst, nat,
              ⟨tr, sr, fr, oc, cc, lsc⟩, osc, ofl, osu⟩ now e rfl
          rw [if_neg hth] at hstep
          simp only [execFailN, hstep]
          rw [ih ⟨nm, th, tout, rt, mon, BState.CLOSED, fl + 1, sc, some now, lst, nat,
            ⟨tr + 1, sr, fr + 1, oc, cc, lsc⟩, osc, ofl, osu⟩ now rfl hnpos
            (show fl + 1 + n = th by omega)]
          simp [Breaker.mk.injEq, Metrics.mk.injEq]
          omega

/-- An `execute` call on an `OPEN` breaker before `nextAttemptTime` is
rejected with `CircuitBreakerOpenError` without invoking the wrapped call;
only `totalRequests` moves. -/
lemma execute_open_rejects (b : Breaker) (now : Nat) (o : CallOutcome) (t : Nat)
    (hst : b.state = BState.OPEN) (hna : b.nextAttemptTime = some t)
    (hlt : now < t) :
    execute b now o =
      ⟨ExecResult.err JsError.circuitOpen,
        { b with metrics := { b.metrics with
            totalRequests := b.metrics.totalRequests + 1 } }, [], false⟩ := by
  have hd : ¬ (t ≤ now) := by omega
  simp [execute, shouldAttemptReset, hst, hna, hd]

/-- Claim C1: a `CLOSED` breaker with `failures = 0` is `OPEN` after exactly
`failureThreshold` consecutive failing `execute` calls, and an immediately
subsequent call (arriving before `nextAttemptTime`) is rejected with
`CircuitBreakerOpenError` without the wrapped call being invoked, while
`totalRequests` is still incremented by the rejected call. -/
theorem C1_threshold_opens_then_rejects (b : Breaker) (now now2 : Nat)
    (e : AxiosError) (o : CallOutcome)
    (hst : b.state = BState.CLOSED) (hf : b.failures = 0)
    (hth : 0 < b.failureThreshold) (hnow2 : now2 < now + b.resetTimeout) :
    (execFailN b now e b.failureThreshold).state = BState.OPEN ∧
    (execFailN b now e b.failureThreshold).nextAttemptTime
      = some (now + b.resetTimeout) ∧
    (execute (execFailN b now e b.failureThreshold) now2 o).result
      = ExecResult.err JsError.circuitOpen ∧
    (execute (execFailN b now e b.failureThreshold) now2 o).callAttempted = false ∧
    (execute (execFailN b now e b.failureThreshold) now2 o).breaker.metrics.totalRequests
      = (execFailN b now e b.failureThreshold).metrics.totalRequests + 1 ∧
    (execute (execFailN b now e b.failureThreshold) now2 o).breaker.state
      = BState.OPEN := by
  have hopen := execFailN_opens e b.failureThreshold b now hst hth (by omega)
  have hstate : (execFailN b now e b.failureThreshold).state = BState.OPEN := by
    rw [hopen]
  have hnat : (execFailN b now e b.failureThreshold).nextAttemptTime
      = some (now + b.resetTimeout) := by rw [hopen]
  have hrt : (execFailN b now e b.failureThreshold).resetTimeout = b.resetTimeout := by
    rw [hopen]
  have hrej := execute_open_rejects (execFailN b now e b.failureThreshold) now2 o
    (now + b.resetTimeout) hstate hnat hnow2
  refine ⟨hstate, hnat, ?_, ?_, ?_, ?_⟩ <;> simp [hrej, hstate]

/-- Witness for C1: a threshold-2 breaker, two failing calls at time 7, a
rejected call at time 8. -/
theorem C1_threshold_opens_then_rejects_witness :
    (make ⟨some "w", some 2, some 1000, some 5000, none, Cb.null, Cb.null, Cb.null⟩
      0).state = BState.CLOSED ∧
    (execFailN (make ⟨some "w", some 2, some 1000, some 5000, none, Cb.null, Cb.null,
      Cb.null⟩ 0) 7 ⟨none, some "ECONNREFUSED"⟩ 2).state = BState.OPEN ∧
    (execute (execFailN (make ⟨some "w", some 2, some 1000, some 5000, none, Cb.null,
      Cb.null, Cb.null⟩ 0) 7 ⟨none, some "ECONNREFUSED"⟩ 2) 8
      (CallOutcome.succeeds 200)).result = ExecResult.err JsError.circuitOpen := by
  have h := C1_threshold_opens_then_rejects
    (make ⟨some "w", some 2, some 1000, some 5000, none, Cb.null, Cb.null, Cb.null⟩ 0)
    7 8 ⟨none, some "ECONNREFUSED"⟩ (CallOutcome.succeeds 200)
    rfl rfl (by decide) (by decide)
  exact ⟨rfl, h.1, h.2.2.1⟩

/-- The try/catch body of `execute` never changes the breaker beyond what
`executeWithTimeout` did: `onSuccess`/`onFailure` only shape the result. -/
lemma executeTry_breaker (b : Breaker) (now : Nat) (o : CallOutcome)
    (log0 : List (BState × BState)) :
    (executeTry b now o log0).breaker = (executeWithTimeout b now o).breaker := by
  rcases hs : (executeWithTimeout b now o).settled with _ | es
  · simp [executeTry, hs]
  · rcases es with e | s
    · simp [executeTry, hs]
    · rcases hos : (executeWithTimeout b now o).breaker.onSuccess with _ | thr
      · simp [executeTry, hs, hos]
      · cases thr <;> simp [executeTry, hs, hos]

/-- The try/catch body of `execute` always invokes the wrapped call. -/
lemma executeTry_attempted (b : Breaker) (now : Nat) (o : CallOutcome)
    (log0 : List (BState × BState)) :
    (executeTry b now o log0).callAttempted = true := by
  rcases hs : (executeWithTimeout b now o).settled with _ | es
  · simp [executeTry, hs]
  · rcases es with e | s
    · simp [executeTry, hs]
    · rcases hos : (executeWithTimeout b now o).breaker.onSuccess with _ | thr
      · simp [executeTry, hs, hos]
      · cases thr <;> simp [executeTry, hs, hos]

/-- An `execute` call on an `OPEN` breaker at or after `nextAttemptTime`
(with a hook that does not throw) first moves it to `HALF_OPEN` and then runs
the try/catch body on the half-open breaker. -/
lemma execute_open_attempt (b : Breaker) (now : Nat) (o : CallOutcome) (t : Nat)
    (hst : b.state = BState.OPEN) (hna : b.nextAttemptTime = some t) (ht : t ≤ now)
    (hhook : b.onStateChange ≠ Cb.fn true) :
    ∃ log, execute b now o =
      executeTry
        { b with state := BState.HALF_OPEN, nextAttemptTime := none,
                 metrics := { b.metrics with
                   totalRequests := b.metrics.totalRequests + 1,
                   lastStateChange := now } } now o log := by
  obtain ⟨nm, th, tout, rt, mon, st, fl, sc, lft, lst, nat,
    ⟨tr, sr, fr, oc, cc, lsc⟩, osc, ofl, osu⟩ := b
  simp only at hst hna hhook
  subst hst
  subst hna
  have hosc : osc = Cb.null ∨ osc = Cb.fn false := by
    cases osc with
    | null => exact Or.inl rfl
    | fn thr =>
        cases thr with
        | false => exact Or.inr rfl
        | true => exact absurd rfl hhook
  rcases hosc with h | h <;> subst h
  · exact ⟨[], by simp [execute, shouldAttemptReset, setState, ht]⟩
  · exact ⟨[(BState.OPEN, BState.HALF_OPEN)],
      by simp [execute, shouldAttemptReset, setState, ht]⟩

/-- Amended claim C3: a breaker that is `OPEN` with `failures ≥
failureThreshold` — which is how `recordFailure` always leaves it when it
opens the circuit — and whose `onStateChange` hook does not throw, behaves as
the claim says once `nextAttemptTime` is reached: the next `execute`
transitions to `HALF_OPEN` (a hanging trial leaves it there) and attempts
exactly one trial call; a successful trial closes it with `failures = 0`, and
a failing trial re-opens it with `nextAttemptTime = now + resetTimeout`. -/
theorem C3_half_open_trial (b : Breaker) (t now s : Nat) (e : AxiosError)
    (hst : b.state = BState.OPEN) (hna : b.nextAttemptTime = some t)
    (ht : t ≤ now) (hf : b.failureThreshold ≤ b.failures)
    (hhook : b.onStateChange ≠ Cb.fn true) :
    (execute b now CallOutcome.hangs).breaker.state = BState.HALF_OPEN ∧
    (execute b now CallOutcome.hangs).callAttempted = true ∧
    (execute b now (CallOutcome.succeeds s)).breaker.state = BState.CLOSED ∧
    (execute b now (CallOutcome.succeeds s)).breaker.failures = 0 ∧
    (execute b now (CallOutcome.succeeds s)).callAttempted = true ∧
    (execute b now (CallOutcome.fails e)).breaker.state = BState.OPEN ∧
    (execute b now (CallOutcome.fails e)).breaker.nextAttemptTime
      = some (now + b.resetTimeout) ∧
    (execute b now (CallOutcome.fails e)).callAttempted = true := by
  obtain ⟨logh, hh⟩ := execute_open_attempt b now CallOutcome.hangs t hst hna ht hhook
  obtain ⟨logs, hs⟩ := execute_open_attempt b now (CallOutcome.succeeds s) t hst hna
    ht hhook
  obtain ⟨logf, hf2⟩ := execute_open_attempt b now (CallOutcome.fails e) t hst hna
    ht hhook
  rw [hh, hs, hf2]
  rw [executeTry_attempted, executeTry_attempted, executeTry_attempted,
    executeTry_breaker, executeTry_breaker, executeTry_breaker]
  obtain ⟨nm, th, tout, rt, mon, st, fl, sc, lft, lst, nat,
    ⟨tr, sr, fr, oc, cc, lsc⟩, osc, ofl, osu⟩ := b
  simp only at hf hhook
  have hosc : osc = Cb.null ∨ osc = Cb.fn false := by
    cases osc with
    | null => exact Or.inl rfl
    | fn thr =>
        cases thr with
        | false => exact Or.inr rfl
        | true => exact absurd rfl hhook
  have hth : th ≤ fl + 1 := by omega
  rcases hosc with h | h <;> subst h <;>
    simp [executeWithTimeout, recordSuccess, recordFailure, setState, hth]

/-- Counterexample to claim C3 as stated: a breaker that entered `OPEN`
through `forceOpen()` (with `failures = 0 < failureThreshold = 5`) does NOT
return to `OPEN` when the trial call after `resetTimeout` fails — it stays
`HALF_OPEN`, because `recordFailure` only re-opens once
`failures ≥ failureThreshold`. -/
theorem C3_forceOpen_counterexample :
    shouldAttemptReset
      (forceOpen (make ⟨some "x", some 5, some 5000, some 30000, none, Cb.null,
        Cb.null, Cb.null⟩ 0) 0).breaker 30000 = true ∧
    (execute (forceOpen (make ⟨some "x", some 5, some 5000, some 30000, none,
      Cb.null, Cb.null, Cb.null⟩ 0) 0).breaker 30000
      (CallOutcome.fails ⟨none, some "ECONNREFUSED"⟩)).breaker.state
      = BState.HALF_OPEN ∧
    ¬ (execute (forceOpen (make ⟨some "x", some 5, some 5000, some 30000, none,
      Cb.null, Cb.null, Cb.null⟩ 0) 0).breaker 30000
      (CallOutcome.fails ⟨none, some "ECONNREFUSED"⟩)).breaker.state
      = BState.OPEN := by
  decide

/-- Witness for the amended C3 at a breaker opened by real failures. -/
theorem C3_half_open_trial_witness :
    (execFailN (make ⟨some "w", some 2, some 1000, some 5000, none, Cb.null, Cb.null,
      Cb.null⟩ 0) 7 ⟨none, some "ECONNREFUSED"⟩ 2).state = BState.OPEN ∧
    (execute (execFailN (make ⟨some "w", some 2, some 1000, some 5000, none, Cb.null,
      Cb.null, Cb.null⟩ 0) 7 ⟨none, some "ECONNREFUSED"⟩ 2) 5007
      (CallOutcome.succeeds 200)).breaker.state = BState.CLOSED ∧
    (execute (execFailN (make ⟨some "w", some 2, some 1000, some 5000, none, Cb.null,
      Cb.null, Cb.null⟩ 0) 7 ⟨none, some "ECONNREFUSED"⟩ 2) 5007
      (CallOutcome.fails ⟨none, some "ECONNREFUSED"⟩)).breaker.state
      = BState.OPEN := by
  have h := C3_half_open_trial
    (execFailN (make ⟨some "w", some 2, some 1000, some 5000, none, Cb.null, Cb.null,
      Cb.null⟩ 0) 7 ⟨none, some "ECONNREFUSED"⟩ 2)
    5007 5007 200 ⟨none, some "ECONNREFUSED"⟩
    (by decide) (by decide) (by decide) (by decide) (by decide)
  exact ⟨by decide, h.2.2.1, h.2.2.2.2.2.1⟩

/-- Amended claim C4: every state transition (`setState`, the single
transition routine used by `execute` and `reset`) with a non-null observer
hook invokes the hook exactly once with `(oldState, newState)`, and the
state field is updated before the hook runs; but the hook is not shielded —
a throwing hook's exception propagates out of the transition (and hence to
the caller of `execute` or `reset`). -/
theorem C4_hook_invocation (b : Breaker) (now : Nat) (ns : BState) (thr : Bool)
    (hne : b.state ≠ ns) (hcb : b.onStateChange = Cb.fn thr) :
    (setState b now ns).hookCalls = [(b.state, ns)] ∧
    (setState b now ns).breaker.state = ns ∧
    (setState b now ns).thrown
      = (if thr then some JsError.hookError else none) := by
  obtain ⟨nm, th, tout, rt, mon, st, fl, sc, lft, lst, nat,
    ⟨tr, sr, fr, oc, cc, lsc⟩, osc, ofl, osu⟩ := b
  simp only at hne hcb
  subst hcb
  cases ns <;> simp [setState, hne]

/-- Counterexample to claim C4 as stated: two breakers that differ only in
whether their `onStateChange` hook throws, both forced `OPEN` and probed
after `resetTimeout` with a succeeding call. With the throwing hook,
`execute` delivers the hook's exception and never invokes the wrapped call;
with the benign hook it returns the call's value — so a throwing hook does
affect the outcome delivered to the caller of `execute`. -/
theorem C4_throwing_hook_counterexample :
    (execute (forceOpen (make ⟨some "x", some 5, some 5000, some 30000, none,
      Cb.fn true, Cb.fn false, Cb.fn false⟩ 0) 0).breaker 30000
      (CallOutcome.succeeds 200)).result = ExecResult.err JsError.hookError ∧
    (execute (forceOpen (make ⟨some "x", some 5, some 5000, some 30000, none,
      Cb.fn true, Cb.fn false, Cb.fn false⟩ 0) 0).breaker 30000
      (CallOutcome.succeeds 200)).callAttempted = false ∧
    (execute (forceOpen (make ⟨some "x", some 5, some 5000, some 30000, none,
      Cb.fn false, Cb.fn false, Cb.fn false⟩ 0) 0).breaker 30000
      (CallOutcome.succeeds 200)).result = ExecResult.ok 200 := by
  decide

/-- Witness for the amended C4 at a concrete transition. -/
theorem C4_hook_invocation_witness :
    (make ⟨some "x", some 5, some 5000, some 30000, none, Cb.fn true, Cb.fn false,
      Cb.fn false⟩ 0).state ≠ BState.OPEN ∧
    (setState (make ⟨some "x", some 5, some 5000, some 30000, none, Cb.fn true,
      Cb.fn false, Cb.fn false⟩ 0) 9 BState.OPEN).hookCalls
      = [(BState.CLOSED, BState.OPEN)] ∧
    (setState (make ⟨some "x", some 5, some 5000, some 30000, none, Cb.fn true,
      Cb.fn false, Cb.fn false⟩ 0) 9 BState.OPEN).thrown
      = some JsError.hookError := by
  have h := C4_hook_invocation
    (make ⟨some "x", some 5, some 5000, some 30000, none, Cb.fn true, Cb.fn false,
      Cb.fn false⟩ 0) 9 BState.OPEN true (by decide) rfl
  exact ⟨by decide, h.1, h.2.2⟩

/-- Requests that arrive while the client's window entry has room are all
passed through, incrementing the count by one each. -/
lemma runRequests_pass (R : Nat) :
    ∀ (ts : List Nat) (k : Nat), (∀ t2 ∈ ts, t2 ≤ R) →
    k + ts.length ≤ rlMaxRequests →
    runRequests (some ⟨k, R⟩) ts
      = (List.replicate ts.length RLDecision.pass, some ⟨k + ts.length, R⟩) := by
  intro ts
  induction ts with
  | nil => intro k _ _; simp [runRequests]
  | cons t ts ih =>
      intro k hin hcap
      have ht : t ≤ R := hin t (by simp)
      have hroll : ¬ R < t := by omega
      have hcount : ¬ rlMaxRequests ≤ k := by
        simp only [List.length_cons] at hcap
        omega
      simp only [runRequests, rateLimitStep, hroll, if_false, if_neg hcount,
        if_neg hroll]
      rw [ih (k + 1) (fun t2 h2 => hin t2 (by simp [h2])) (by simp at hcap ⊢; omega)]
      simp [List.replicate_succ]
      omega

/-- Amended claim C7: starting from no entry, the first 100 requests of a
client inside one 15-minute window all pass; a 101st request at `t101` not
past the window's reset time is answered `429` with
`retryAfter = ceil((resetTime - t101)/1000)` seconds and does not reach the
next middleware — with `retryAfter > 0` whenever `t101` is strictly before
the reset time (at the boundary instant `t101 = resetTime` the response is
`429` with `retryAfter = 0`); and a request strictly after the reset time
rolls the window: the count restarts at 0 and the request passes. -/
theorem C7_rate_limit_window (t0 : Nat) (ts : List Nat) (t101 t102 : Nat)
    (hlen : ts.length = 99) (hin : ∀ t2 ∈ ts, t2 ≤ t0 + rlWindowMs)
    (h101 : t101 ≤ t0 + rlWindowMs) (h102 : t0 + rlWindowMs < t102) :
    (runRequests none (t0 :: ts)).1 = List.replicate 100 RLDecision.pass ∧
    (runRequests none (t0 :: ts)).2 = some ⟨100, t0 + rlWindowMs⟩ ∧
    (rateLimitStep (some ⟨100, t0 + rlWindowMs⟩) t101).1
      = RLDecision.reject ((t0 + rlWindowMs - t101 + 999) / 1000) ∧
    (t101 < t0 + rlWindowMs → 0 < (t0 + rlWindowMs - t101 + 999) / 1000) ∧
    (rateLimitStep (some ⟨100, t0 + rlWindowMs⟩) t102).1 = RLDecision.pass ∧
    (rateLimitStep (some ⟨100, t0 + rlWindowMs⟩) t102).2
      = ⟨1, t102 + rlWindowMs⟩ := by
  have hfirst : rateLimitStep none t0 = (RLDecision.pass, ⟨1, t0 + rlWindowMs⟩) := by
    simp [rateLimitStep, rlMaxRequests]
  have hrest := runRequests_pass (t0 + rlWindowMs) ts 1 hin
    (by simp [hlen, rlMaxRequests])
  have hrun : runRequests none (t0 :: ts)
      = (List.replicate 100 RLDecision.pass, some ⟨100, t0 + rlWindowMs⟩) := by
    simp only [runRequests, hfirst, hrest, hlen]
    rfl
  refine ⟨by rw [hrun], by rw [hrun], ?_, ?_, ?_, ?_⟩
  · have hroll : ¬ t0 + rlWindowMs < t101 := by omega
    simp [rateLimitStep, hroll, rlMaxRequests]
  · intro hlt
    omega
  · simp [rateLimitStep, h102, rlMaxRequests]
  · simp [rateLimitStep, h102, rlMaxRequests]

/-- Counterexample to claim C7 as stated: 100 requests at time 0 fill the
window (reset time `900000`); a 101st request at exactly the reset time is
still "within the same window" (the window only rolls when
`now > windowResetTime`), and it is answered `429` with `retryAfter = 0`,
not `retryAfter > 0`. -/
theorem C7_boundary_counterexample :
    (runRequests none (List.replicate 100 0)).1
      = List.replicate 100 RLDecision.pass ∧
    (rateLimitStep (runRequests none (List.replicate 100 0)).2 900000).1
      = RLDecision.reject 0 ∧
    ¬ ∃ r, 0 < r ∧
      (rateLimitStep (runRequests none (List.replicate 100 0)).2 900000).1
        = RLDecision.reject r := by
  refine ⟨by decide, by decide, ?_⟩
  rintro ⟨r, hr, heq⟩
  have : RLDecision.reject 0
      = (rateLimitStep (runRequests none (List.replicate 100 0)).2 900000).1 := by
    decide
  rw [← this] at heq
  simp at heq
  omega

/-- Witness for the amended C7 at concrete request times. -/
theorem C7_rate_limit_window_witness :
    (List.replicate 99 0).length = 99 ∧
    (rateLimitStep (some ⟨100, 900000⟩) 899000).1 = RLDecision.reject 1 ∧
    (rateLimitStep (some ⟨100, 900000⟩) 900001).1 = RLDecision.pass := by
  have h := C7_rate_limit_window 0 (List.replicate 99 0) 899000 900001
    rfl (by decide) (by decide) (by decide)
  refine ⟨rfl, ?_, ?_⟩
  · have h3 := h.2.2.1
    simpa using h3
  · simpa using h.2.2.2.2.1

end Micro
